import Mathlib

/-!
Verification of the robosuite NViSII scene-description parser
(`robosuite/renderers/nvisii/parser.py`).

The parser walks a MuJoCo scene XML, builds lookup tables for textures,
materials and meshes, and emits one visual-component record per eligible
geometry node.  We embed the document as flattened lists of attribute maps
(one entry per `texture`/`material`/`mesh`/`geom` node, in document order,
each `geom` paired with its parent body's attributes), and the parser's
dictionaries as association lists where the most recent insertion wins.
Python exceptions (`KeyError`, `AttributeError` from calling a method on
`None`, `ValueError` from `float`, `IndexError`) become an `Except` error
value that aborts the pass, exactly where the source would raise.
-/

namespace Robosuite

/-- An XML element's attribute mapping (string keys to string values).
XML attributes are unique per element, so a plain association list suffices. -/
abbrev AttrMap := List (String × String)

/-- `Element.get(key)`: the attribute's value, or `none` when absent. -/
def attrGet (m : AttrMap) (k : String) : Option String :=
  (m.find? (fun p => p.1 == k)).map Prod.snd

/-- `Element.get(key, default)`. -/
def attrGetD (m : AttrMap) (k d : String) : String :=
  (attrGet m k).getD d

/-- A `geom` node of the scene document together with the attributes of its
parent body (the source derives the parent via `parent_map`). -/
structure GeomNode where
  attrs : AttrMap
  parentAttrs : AttrMap
deriving DecidableEq

/-- A scene document, flattened: the lists hold the `texture`, `material`,
`mesh` and `geom` nodes in document order (the order `ElementTree.iter`
yields them). -/
structure SceneDocument where
  textures : List AttrMap
  materials : List AttrMap
  meshes : List AttrMap
  geoms : List GeomNode
deriving DecidableEq

/-- The Python exceptions the parser can raise. -/
inductive PyError where
  | keyError : Option String → PyError
  | attributeError : PyError
  | valueError : PyError
  | indexError : PyError
deriving DecidableEq, Repr

/-- `10 ^ e` on integers, written structurally so the kernel evaluates it. -/
def pow10 : Nat → Int
  | 0 => 1
  | n + 1 => 10 * pow10 n

/-- An exact decimal number `m / 10 ^ e`.  The parser's numeric attribute
values are finite decimal literals, which this represents without loss;
`Dec.toRat` gives its value as a rational. -/
structure Dec where
  m : Int
  e : Nat
deriving DecidableEq

/-- The rational value of a `Dec`. -/
def Dec.toRat (d : Dec) : ℚ := (d.m : ℚ) / (10 : ℚ) ^ d.e

/-- Exact addition of decimals (common power-of-ten denominator). -/
def Dec.add (a b : Dec) : Dec :=
  ⟨a.m * pow10 b.e + b.m * pow10 a.e, a.e + b.e⟩

/-- The decimal 1. -/
def Dec.one : Dec := ⟨1, 0⟩

/-- Numeric value of a list of decimal digit characters. -/
def digitsVal (cs : List Char) : Nat :=
  cs.foldl (fun a c => a * 10 + (c.toNat - 48)) 0

/-- Modelled from the spec: the numeric token grammar accepted when the
parser "parses its primary color string into a numeric triple" (the helper
`string_to_array` lives in `robosuite.utils.mjcf_utils`, outside the visible
sources).  A token is an optional minus sign, then digits with an optional
decimal point; anything else is rejected the way Python's `float` raises
`ValueError`. -/
def parseUnsigned (cs : List Char) : Option Dec :=
  let intPart := cs.takeWhile Char.isDigit
  let rest := cs.dropWhile Char.isDigit
  match rest with
  | [] => if intPart.isEmpty then none else some ⟨(digitsVal intPart : Int), 0⟩
  | '.' :: frac =>
      if frac.all Char.isDigit && !(intPart.isEmpty && frac.isEmpty) then
        some ⟨(digitsVal intPart : Int) * pow10 frac.length + (digitsVal frac : Int),
              frac.length⟩
      else none
  | _ => none

/-- Modelled from the spec: one numeric token (see `parseUnsigned`). -/
def parseFloatTok (cs : List Char) : Option Dec :=
  match cs with
  | '-' :: rest => (parseUnsigned rest).map (fun d => ⟨-d.m, d.e⟩)
  | _ => parseUnsigned cs

/-- Python `str.split(" ")`: split at every single space. -/
def splitOnSpace : List Char → List (List Char)
  | [] => [[]]
  | c :: cs =>
      match splitOnSpace cs with
      | [] => [[]]
      | h :: t => if c = ' ' then [] :: h :: t else (c :: h) :: t

/-- Modelled from the spec: `string_to_array` from
`robosuite.utils.mjcf_utils` is not under the visible sources; the spec says
it parses a space-separated attribute string into a numeric vector.  Called
on an absent attribute (`None`) it fails the way `None.split` raises
`AttributeError`; a non-numeric token fails the way `float` raises
`ValueError`. -/
def string_to_array (s : Option String) : Except PyError (List Dec) :=
  match s with
  | none => Except.error PyError.attributeError
  | some str =>
      match (splitOnSpace str.data).mapM parseFloatTok with
      | none => Except.error PyError.valueError
      | some xs => Except.ok xs

/-- Modelled from the spec: elementwise vector addition (numpy `+` on the
two position vectors), with numpy's length-1 broadcast and its error on a
length mismatch. -/
def npAdd (xs ys : List Dec) : Except PyError (List Dec) :=
  if xs.length = ys.length then Except.ok (xs.zipWith Dec.add ys)
  else if xs.length = 1 then Except.ok (ys.map (fun b => Dec.add (xs.headD ⟨0, 0⟩) b))
  else if ys.length = 1 then Except.ok (xs.map (fun a => Dec.add a (ys.headD ⟨0, 0⟩)))
  else Except.error PyError.valueError

/-- Lookup in an association list keyed by `Option String` (Python `dict`
final state: insertions cons at the front, so the first hit is the most
recent write). -/
def alistGet {α : Type} (m : List (Option String × α)) (k : Option String) : Option α :=
  (m.find? (fun p => p.1 == k)).map Prod.snd

/-- The two texture tables built by `parse_textures`:
`texture_attributes` keeps the full attribute map of every file-backed
texture; `texture_id_mapping` keeps `(color, type)` for procedural ones. -/
structure TexTables where
  texture_attributes : List (Option String × AttrMap)
  texture_id_mapping : List (Option String × (List Dec × Option String))
deriving DecidableEq

/-- The loop body of `Parser.parse_textures`, one `texture` node at a time. -/
def texturesLoop (acc : TexTables) : List AttrMap → Except PyError TexTables
  | [] => Except.ok acc
  | tex :: rest =>
      let texture_type := attrGet tex "type"
      let texture_name := attrGet tex "name"
      let texture_file := attrGet tex "file"
      let texture_rgb := attrGet tex "rgb1"
      match texture_file with
      | some _ =>
          texturesLoop
            { acc with texture_attributes := (texture_name, tex) :: acc.texture_attributes }
            rest
      | none =>
          match string_to_array texture_rgb with
          | Except.error e => Except.error e
          | Except.ok color =>
              texturesLoop
                { acc with
                    texture_id_mapping :=
                      (texture_name, (color, texture_type)) :: acc.texture_id_mapping }
                rest

/-- `Parser.parse_textures`. -/
def parse_textures (doc : SceneDocument) : Except PyError TexTables :=
  texturesLoop ⟨[], []⟩ doc.textures

/-- `Parser.parse_materials`: material name → referenced texture name. -/
def parse_materials (doc : SceneDocument) : List (Option String × Option String) :=
  doc.materials.foldl (fun m mat => (attrGet mat "name", attrGet mat "texture") :: m) []

/-- `Parser.parse_meshes`: mesh name → full attribute map. -/
def parse_meshes (doc : SceneDocument) : List (Option String × AttrMap) :=
  doc.meshes.foldl (fun m mesh => (attrGet mesh "name", mesh) :: m) []

/-- Lookup in the `repeated_names` counter dictionary. -/
def lookupNat (m : List (String × Nat)) (k : String) : Option Nat :=
  (m.find? (fun p => p.1 == k)).map Prod.snd

/-- Write to the `repeated_names` counter dictionary (most recent wins). -/
def setNat (m : List (String × Nat)) (k : String) (v : Nat) : List (String × Nat) :=
  (k, v) :: m

/-- Name resolution (`parser.py` lines 86-92): keep an explicit name; for an
unnamed geometry synthesize `parent_body_name + str(counter)`, the per-parent
counter starting at 0, and bump the counter. -/
def resolve_name (rn : List (String × Nat)) (parent_body_name : String) :
    Option String → String × List (String × Nat)
  | some n => (n, rn)
  | none =>
      match lookupNat rn parent_body_name with
      | some k => (parent_body_name ++ Nat.repr k, setNat rn parent_body_name (k + 1))
      | none => (parent_body_name ++ "0", setNat rn parent_body_name 1)

/-- Occurrence of `pat` at any position of `s` (character lists). -/
def containsSub (s pat : List Char) : Bool :=
  match s with
  | [] => pat.isEmpty
  | _ :: rest => pat.isPrefixOf s || containsSub rest pat

/-- Python's substring test `pat in s`. -/
def strContains (s pat : String) : Bool :=
  containsSub s.data pat.data

/-- `Parser.tag_in_name`: whether one of the tags occurs in the name. -/
def tag_in_name (name : String) (tags : List String) : Bool :=
  tags.any (fun tag => strContains name tag)

/-- The fixed deny-list of known pure-visual duplicate objects. -/
def block_rendering_objects : List String :=
  ["VisualBread_g0", "VisualCan_g0", "VisualCereal_g0", "VisualMilk_g0"]

/-- Modelled from the spec: the renderer collaborator's create-visual-object
call (`load_object` from `nvisii_utils`, outside the visible sources) is an
opaque handle; we record the argument tuple the parser hands it. -/
structure RendererHandle where
  geom_name : String
  geom_type : Option String
  geom_quat : List Dec
  geom_pos : List Dec
  geom_size : List Dec
  geom_scale : List Dec
  geom_rgba : Option (List Dec)
  geom_tex_name : Option String
  geom_tex_file : Option String
deriving DecidableEq

/-- The `Components` namedtuple emitted per eligible geometry. -/
structure Components where
  obj : RendererHandle
  parent_body_name : String
  geom_pos : List Dec
  geom_quat : List Dec
  dynamic : Bool
deriving DecidableEq

/-- The tables `parse_geometries` consults. -/
structure Tables where
  texture_attributes : List (Option String × AttrMap)
  material_texture_mapping : List (Option String × Option String)
  meshes : List (Option String × AttrMap)
deriving DecidableEq

/-- `rgba` extraction (`parser.py` lines 83-84): parse when present. -/
def resolve_rgba (g : GeomNode) : Except PyError (Option (List Dec)) :=
  match attrGet g.attrs "rgba" with
  | some s => Except.map some (string_to_array (some s))
  | none => Except.ok none

/-- First exclusion test (`parser.py` line 94). -/
def excludedByName (geom_name : String) : Bool :=
  strContains geom_name "floor" || strContains geom_name "wall"
    || block_rendering_objects.contains geom_name

/-- Second exclusion test (`parser.py` line 97). -/
def excludedByGroup (g : GeomNode) (geom_name : String) : Bool :=
  (attrGet g.attrs "group" != some "1" && attrGet g.attrs "type" != some "plane")
    || strContains geom_name "collision"

/-- Quaternion extraction (`parser.py` lines 100-101): default identity,
then re-pack the first four entries (`IndexError` when fewer). -/
def resolve_quat (g : GeomNode) : Except PyError (List Dec) := do
  let raw ← string_to_array (some (attrGetD g.attrs "quat" "1 0 0 0"))
  match raw with
  | q0 :: q1 :: q2 :: q3 :: _ => Except.ok [q0, q1, q2, q3]
  | _ => Except.error PyError.indexError

/-- Position resolution (`parser.py` lines 103-107): under a parent whose
name contains `"bin"`, add the parent body's own position. -/
def resolve_pos (g : GeomNode) : Except PyError (List Dec) :=
  if strContains (attrGetD g.parentAttrs "name" "worldbody") "bin" then do
    let a ← string_to_array (some (attrGetD g.attrs "pos" "0 0 0"))
    let b ← string_to_array (some (attrGetD g.parentAttrs "pos" "0 0 0"))
    npAdd a b
  else
    string_to_array (some (attrGetD g.attrs "pos" "0 0 0"))

/-- Scale resolution (`parser.py` lines 109-112): mesh-typed geometries read
the referenced mesh's recorded scale (a `KeyError` when the mesh is not in
the table); every other type gets `(1,1,1)`. -/
def resolve_scale (meshes : List (Option String × AttrMap)) (g : GeomNode) :
    Except PyError (List Dec) :=
  if attrGet g.attrs "type" == some "mesh" then
    match alistGet meshes (attrGet g.attrs "mesh") with
    | none => Except.error (PyError.keyError (attrGet g.attrs "mesh"))
    | some mattrs => string_to_array (some (attrGetD mattrs "scale" "1 1 1"))
  else
    Except.ok [Dec.one, Dec.one, Dec.one]

/-- Material/texture resolution (`parser.py` lines 122-129): no material
means no binding; a material absent from the material table is a `KeyError`;
a texture name outside the file-backed table leaves the file unresolved. -/
def resolve_tex (T : Tables) : Option String → Except PyError (Option String × Option String)
  | none => Except.ok (none, none)
  | some mat =>
      match alistGet T.material_texture_mapping (some mat) with
      | none => Except.error (PyError.keyError (some mat))
      | some texName =>
          match alistGet T.texture_attributes texName with
          | none => Except.ok (texName, none)
          | some tattrs =>
              match attrGet tattrs "file" with
              | none => Except.error (PyError.keyError (some "file"))
              | some f => Except.ok (texName, some f)

/-- One iteration of the `parse_geometries` loop (`parser.py` lines 75-148):
returns the updated `repeated_names` counters and, unless the node is
excluded, the `(name, record)` pair inserted into `self.components`. -/
def geomRecord (T : Tables) (rn : List (String × Nat)) (g : GeomNode) :
    Except PyError (List (String × Nat) × Option (String × Components)) := do
  let parent_body_name := attrGetD g.parentAttrs "name" "worldbody"
  let geom_rgba ← resolve_rgba g
  let (geom_name, rn') := resolve_name rn parent_body_name (attrGet g.attrs "name")
  if excludedByName geom_name then
    Except.ok (rn', none)
  else if excludedByGroup g geom_name then
    Except.ok (rn', none)
  else do
    let geom_quat ← resolve_quat g
    let geom_pos ← resolve_pos g
    let geom_scale ← resolve_scale T.meshes g
    let geom_size ← string_to_array (some (attrGetD g.attrs "size" "1 1 1"))
    let dynamic := !(tag_in_name geom_name ["bin"])
    let tex ← resolve_tex T (attrGet g.attrs "material")
    Except.ok (rn', some (geom_name,
      { obj :=
          { geom_name := geom_name
            geom_type := attrGet g.attrs "type"
            geom_quat := geom_quat
            geom_pos := geom_pos
            geom_size := geom_size
            geom_scale := geom_scale
            geom_rgba := geom_rgba
            geom_tex_name := tex.1
            geom_tex_file := tex.2 }
        parent_body_name := parent_body_name
        geom_pos := geom_pos
        geom_quat := geom_quat
        dynamic := dynamic }))

/-- Python `dict` assignment `self.components[geom_name] = ...`: replace in
place when the key exists, else append (insertion order preserved). -/
def dictInsert {α : Type} (m : List (String × α)) (k : String) (v : α) :
    List (String × α) :=
  if m.any (fun p => p.1 == k) then
    m.map (fun p => if p.1 == k then (k, v) else p)
  else m ++ [(k, v)]

/-- Lookup in the components dictionary. -/
def dictGet {α : Type} (m : List (String × α)) (k : String) : Option α :=
  (m.find? (fun p => p.1 == k)).map Prod.snd

/-- The `parse_geometries` loop over all `geom` nodes. -/
def geomsLoop (T : Tables) (rn : List (String × Nat))
    (comps : List (String × Components)) :
    List GeomNode → Except PyError (List (String × Components))
  | [] => Except.ok comps
  | g :: rest => do
      let (rn', r) ← geomRecord T rn g
      match r with
      | none => geomsLoop T rn' comps rest
      | some (n, c) => geomsLoop T rn' (dictInsert comps n c) rest

/-- `Parser.parse_geometries`: builds the mesh table first (line 69), then
walks every `geom` node in document order. -/
def parse_geometries (doc : SceneDocument) (texT : TexTables)
    (mats : List (Option String × Option String)) :
    Except PyError (List (String × Components)) :=
  let meshes := parse_meshes doc
  geomsLoop ⟨texT.texture_attributes, mats, meshes⟩ [] [] doc.geoms

/-- The full pass a fresh parser instance runs:
`parse_textures` → `parse_materials` → `parse_geometries`. -/
def parse_all (doc : SceneDocument) : Except PyError (List (String × Components)) := do
  let texT ← parse_textures doc
  let mats := parse_materials doc
  parse_geometries doc texT mats

/-- The error of a failed parse, if any. -/
def errOf {α : Type} : Except PyError α → Option PyError
  | Except.error e => some e
  | Except.ok _ => none

/-!
## Concrete sample inputs

Small documents and geometry nodes used by the closed theorems below, with
the records the parser computes for them.
-/

/-- Empty lookup tables. -/
def T0 : Tables := ⟨[], [], []⟩

/-- A named geometry whose name carries the "bin" tag, under body "B". -/
def gBin : GeomNode := ⟨[("name", "binA"), ("group", "1")], [("name", "B")]⟩

/-- The record the parser emits for `gBin`. -/
def c5rec : Components :=
  { obj :=
      { geom_name := "binA", geom_type := none
        geom_quat := [⟨1, 0⟩, ⟨0, 0⟩, ⟨0, 0⟩, ⟨0, 0⟩]
        geom_pos := [⟨0, 0⟩, ⟨0, 0⟩, ⟨0, 0⟩]
        geom_size := [⟨1, 0⟩, ⟨1, 0⟩, ⟨1, 0⟩]
        geom_scale := [⟨1, 0⟩, ⟨1, 0⟩, ⟨1, 0⟩]
        geom_rgba := none, geom_tex_name := none, geom_tex_file := none }
    parent_body_name := "B"
    geom_pos := [⟨0, 0⟩, ⟨0, 0⟩, ⟨0, 0⟩]
    geom_quat := [⟨1, 0⟩, ⟨0, 0⟩, ⟨0, 0⟩, ⟨0, 0⟩]
    dynamic := false }

/-- A geometry with offset `(1,0,0)` under bin-tagged body "bin1" at `(0,2,0)`. -/
def g4 : GeomNode :=
  ⟨[("name", "g"), ("group", "1"), ("pos", "1 0 0")], [("name", "bin1"), ("pos", "0 2 0")]⟩

/-- `string_to_array` of `g4`'s local position attribute. -/
def xs4 : List Dec := [⟨1, 0⟩, ⟨0, 0⟩, ⟨0, 0⟩]

/-- `string_to_array` of `g4`'s parent position attribute. -/
def ys4 : List Dec := [⟨0, 0⟩, ⟨2, 0⟩, ⟨0, 0⟩]

/-- The record the parser emits for `g4`: position `(1,2,0)`. -/
def c4rec : Components :=
  { obj :=
      { geom_name := "g", geom_type := none
        geom_quat := [⟨1, 0⟩, ⟨0, 0⟩, ⟨0, 0⟩, ⟨0, 0⟩]
        geom_pos := [⟨1, 0⟩, ⟨2, 0⟩, ⟨0, 0⟩]
        geom_size := [⟨1, 0⟩, ⟨1, 0⟩, ⟨1, 0⟩]
        geom_scale := [⟨1, 0⟩, ⟨1, 0⟩, ⟨1, 0⟩]
        geom_rgba := none, geom_tex_name := none, geom_tex_file := none }
    parent_body_name := "bin1"
    geom_pos := [⟨1, 0⟩, ⟨2, 0⟩, ⟨0, 0⟩]
    geom_quat := [⟨1, 0⟩, ⟨0, 0⟩, ⟨0, 0⟩, ⟨0, 0⟩]
    dynamic := true }

/-- A mesh-typed geometry referencing mesh "mm". -/
def gMesh : GeomNode :=
  ⟨[("name", "gm"), ("group", "1"), ("type", "mesh"), ("mesh", "mm")], [("name", "B")]⟩

/-- The mesh table entry for "mm" with recorded scale `2 2 2`. -/
def meshAttrs : AttrMap := [("name", "mm"), ("scale", "2 2 2")]

/-- Tables holding only the mesh "mm". -/
def Tmesh : Tables := ⟨[], [], [(some "mm", meshAttrs)]⟩

/-- An unnamed geometry in render group "0" under body "X": it is excluded,
but still consumes the parent's name counter. -/
def gX0 : GeomNode := ⟨[("group", "0")], [("name", "X")]⟩

/-- Two geometry nodes explicitly named "foo" (duplicate final names). -/
def c1doc : SceneDocument :=
  { textures := [], materials := [], meshes := []
    geoms :=
      [ ⟨[("name", "foo"), ("group", "1"), ("type", "box"), ("pos", "5 0 0")], [("name", "body1")]⟩
      , ⟨[("name", "foo"), ("group", "1"), ("type", "box"), ("pos", "7 0 0")], [("name", "body1")]⟩ ] }

/-- A geometry referencing material "m" absent from the material table. -/
def c2doc : SceneDocument :=
  { textures := [], materials := [], meshes := []
    geoms := [ ⟨[("name", "g"), ("group", "1"), ("material", "m")], [("name", "b")]⟩ ] }

/-- A geometry whose material "m" maps to texture "t" that is absent from
both texture tables. -/
def c2doc2 : SceneDocument :=
  { textures := [], materials := [[("name", "m"), ("texture", "t")]], meshes := []
    geoms := [ ⟨[("name", "g"), ("group", "1"), ("material", "m")], [("name", "b")]⟩ ] }

/-- Two unnamed geometries under body "X"; the first is excluded by the
render-group filter, the second is emitted. -/
def c3doc : SceneDocument :=
  { textures := [], materials := [], meshes := []
    geoms := [ ⟨[("group", "0")], [("name", "X")]⟩, ⟨[("group", "1")], [("name", "X")]⟩ ] }

/-- A file-less texture node with no color string. -/
def c8bad : SceneDocument :=
  { textures := [[("name", "t"), ("type", "2d")]], materials := [], meshes := [], geoms := [] }

/-- A well-formed document: the file-less texture node has a color string. -/
def c8good : SceneDocument :=
  { textures := [[("name", "t"), ("type", "2d"), ("rgb1", "0.5 0.5 0.5")]]
    materials := [], meshes := [], geoms := [] }

/-- The record the parser emits for `gMesh` under `Tmesh`. -/
def cMeshRec : Components :=
  { obj :=
      { geom_name := "gm", geom_type := some "mesh"
        geom_quat := [⟨1, 0⟩, ⟨0, 0⟩, ⟨0, 0⟩, ⟨0, 0⟩]
        geom_pos := [⟨0, 0⟩, ⟨0, 0⟩, ⟨0, 0⟩]
        geom_size := [⟨1, 0⟩, ⟨1, 0⟩, ⟨1, 0⟩]
        geom_scale := [⟨2, 0⟩, ⟨2, 0⟩, ⟨2, 0⟩]
        geom_rgba := none, geom_tex_name := none, geom_tex_file := none }
    parent_body_name := "B"
    geom_pos := [⟨0, 0⟩, ⟨0, 0⟩, ⟨0, 0⟩]
    geom_quat := [⟨1, 0⟩, ⟨0, 0⟩, ⟨0, 0⟩, ⟨0, 0⟩]
    dynamic := true }

/-!
## Helper lemmas

Decimal rendering of the per-parent counters (`str()` in the source is
`Nat.repr` here): distinct counters give distinct synthesized names.
-/

theorem toDigitsCore_eq (fuel : Nat) : ∀ (n : Nat) (ds : List Char), 0 < n → n < 10 ^ fuel →
    Nat.toDigitsCore 10 fuel n ds = ((Nat.digits 10 n).reverse.map Nat.digitChar) ++ ds := by
  induction fuel with
  | zero =>
      intro n ds h0 hf
      simp only [pow_zero, Nat.lt_one_iff] at hf
      omega
  | succ fuel ih =>
      intro n ds h0 hf
      simp only [Nat.toDigitsCore]
      by_cases hd : n / 10 = 0
      · simp only [hd, if_true]
        rw [Nat.digits_def' (by norm_num : 1 < 10) h0, hd, Nat.digits_zero]
        simp
      · simp only [hd, if_false]
        have hpos : 0 < n / 10 := Nat.pos_of_ne_zero hd
        have hb : n / 10 < 10 ^ fuel := by
          rw [Nat.div_lt_iff_lt_mul (by norm_num : (0:Nat) < 10)]
          rw [pow_succ] at hf
          exact hf
        rw [ih (n / 10) (Nat.digitChar (n % 10) :: ds) hpos hb]
        rw [Nat.digits_def' (by norm_num : 1 < 10) h0]
        simp [List.append_assoc]

/-- The digit list underlying `Nat.repr`. -/
def reprDigits (n : Nat) : List Nat := if n = 0 then [0] else (Nat.digits 10 n).reverse

theorem natRepr_eq (n : Nat) : Nat.repr n = ((reprDigits n).map Nat.digitChar).asString := by
  by_cases h : n = 0
  · subst h; rfl
  · have h1 : n < 10 ^ (n + 1) :=
      lt_of_lt_of_le (Nat.lt_pow_self (by norm_num) n)
        (Nat.pow_le_pow_right (by norm_num) (Nat.le_succ n))
    rw [Nat.repr, Nat.toDigits, toDigitsCore_eq (n + 1) n [] (Nat.pos_of_ne_zero h) h1]
    simp [reprDigits, h]

theorem digitChar_inj :
    ∀ a, a < 10 → ∀ b, b < 10 → Nat.digitChar a = Nat.digitChar b → a = b := by
  decide

theorem mapDigitChar_inj : ∀ (l1 l2 : List Nat), (∀ x ∈ l1, x < 10) → (∀ x ∈ l2, x < 10) →
    l1.map Nat.digitChar = l2.map Nat.digitChar → l1 = l2 := by
  intro l1
  induction l1 with
  | nil => intro l2 _ _ h; cases l2 <;> simp_all
  | cons a t ih =>
      intro l2 h1 h2 h
      cases l2 with
      | nil => simp_all
      | cons b t2 =>
          simp only [List.map_cons, List.cons.injEq] at h
          have ha := h1 a (by simp)
          have hb := h2 b (by simp)
          have : a = b := digitChar_inj a ha b hb h.1
          subst this
          rw [ih t2 (fun x hx => h1 x (by simp [hx])) (fun x hx => h2 x (by simp [hx])) h.2]

theorem reprDigits_lt (n : Nat) : ∀ x ∈ reprDigits n, x < 10 := by
  intro x hx
  unfold reprDigits at hx
  by_cases h : n = 0
  · simp [h] at hx; omega
  · simp only [h, if_false, List.mem_reverse] at hx
    exact Nat.digits_lt_base (by norm_num) hx

theorem reprDigits_inj (m n : Nat) (h : reprDigits m = reprDigits n) : m = n := by
  unfold reprDigits at h
  by_cases hm : m = 0 <;> by_cases hn : n = 0
  · omega
  · simp only [hm, if_true, hn, if_false] at h
    have hdig : Nat.digits 10 n = [0] := by
      rw [← List.reverse_reverse (Nat.digits 10 n), ← h]
      rfl
    have := congrArg (Nat.ofDigits 10) hdig
    rw [Nat.ofDigits_digits] at this
    simp [Nat.ofDigits] at this
    omega
  · simp only [hm, if_false, hn, if_true] at h
    have hdig : Nat.digits 10 m = [0] := by
      rw [← List.reverse_reverse (Nat.digits 10 m), h]
      rfl
    have := congrArg (Nat.ofDigits 10) hdig
    rw [Nat.ofDigits_digits] at this
    simp [Nat.ofDigits] at this
    omega
  · simp only [hm, hn, if_false] at h
    have hrev := List.reverse_injective h
    have := congrArg (Nat.ofDigits 10) hrev
    rwa [Nat.ofDigits_digits, Nat.ofDigits_digits] at this

theorem natRepr_injective (m n : Nat) (h : Nat.repr m = Nat.repr n) : m = n := by
  rw [natRepr_eq, natRepr_eq] at h
  have hdata : (reprDigits m).map Nat.digitChar = (reprDigits n).map Nat.digitChar :=
    congrArg String.data h
  exact reprDigits_inj m n (mapDigitChar_inj _ _ (reprDigits_lt m) (reprDigits_lt n) hdata)

theorem strAppend_inj (p s1 s2 : String) (h : p ++ s1 = p ++ s2) : s1 = s2 := by
  have hdata := congrArg String.data h
  simp [String.data_append] at hdata
  exact String.ext hdata

theorem pow10_eq (n : Nat) : pow10 n = (10 : Int) ^ n := by
  induction n with
  | zero => rfl
  | succ n ih => rw [pow10, ih, pow_succ]; ring

theorem Dec.toRat_add (a b : Dec) : (Dec.add a b).toRat = a.toRat + b.toRat := by
  unfold Dec.add Dec.toRat
  simp only [pow10_eq]
  have h1 : ((10:ℚ)) ^ a.e ≠ 0 := by positivity
  have h2 : ((10:ℚ)) ^ b.e ≠ 0 := by positivity
  rw [pow_add]
  field_simp

theorem map_toRat_zipWith_add : ∀ (xs ys : List Dec),
    (xs.zipWith Dec.add ys).map Dec.toRat =
      List.zipWith (fun a b => a + b) (xs.map Dec.toRat) (ys.map Dec.toRat) := by
  intro xs
  induction xs with
  | nil => intro ys; simp
  | cons a t ih => intro ys; cases ys <;> simp [Dec.toRat_add, ih]

/-!
Inversion lemmas for one step of the geometry loop.
-/

theorem geomRecord_ok_rn (T : Tables) (rn : List (String × Nat)) (g : GeomNode)
    (rn' : List (String × Nat)) (r : Option (String × Components))
    (h : geomRecord T rn g = Except.ok (rn', r)) :
    rn' = (resolve_name rn (attrGetD g.parentAttrs "name" "worldbody")
            (attrGet g.attrs "name")).2 := by
  unfold geomRecord at h
  simp only [bind, Except.bind] at h
  repeat' split at h
  all_goals simp_all

theorem geomRecord_ok_some (T : Tables) (rn : List (String × Nat)) (g : GeomNode)
    (rn' : List (String × Nat)) (n : String) (c : Components)
    (h : geomRecord T rn g = Except.ok (rn', some (n, c))) :
    (resolve_name rn (attrGetD g.parentAttrs "name" "worldbody") (attrGet g.attrs "name")).1 = n ∧
    (resolve_name rn (attrGetD g.parentAttrs "name" "worldbody") (attrGet g.attrs "name")).2 = rn' ∧
    excludedByName n = false ∧
    excludedByGroup g n = false ∧
    resolve_rgba g = Except.ok c.obj.geom_rgba ∧
    resolve_quat g = Except.ok c.geom_quat ∧
    resolve_pos g = Except.ok c.geom_pos ∧
    resolve_scale T.meshes g = Except.ok c.obj.geom_scale ∧
    string_to_array (some (attrGetD g.attrs "size" "1 1 1")) = Except.ok c.obj.geom_size ∧
    resolve_tex T (attrGet g.attrs "material") = Except.ok (c.obj.geom_tex_name, c.obj.geom_tex_file) ∧
    c.obj.geom_name = n ∧
    c.obj.geom_type = attrGet g.attrs "type" ∧
    c.obj.geom_quat = c.geom_quat ∧
    c.obj.geom_pos = c.geom_pos ∧
    c.parent_body_name = attrGetD g.parentAttrs "name" "worldbody" ∧
    c.dynamic = !(tag_in_name n ["bin"]) := by
  unfold geomRecord at h
  simp only [bind, Except.bind] at h
  repeat' split at h
  all_goals simp_all
  obtain ⟨h1, h2, h3⟩ := h
  subst h2
  subst h3
  simp_all

theorem geomRecord_ok_excluded (T : Tables) (rn : List (String × Nat)) (g : GeomNode)
    (rn' : List (String × Nat)) (r : Option (String × Components))
    (h : geomRecord T rn g = Except.ok (rn', r))
    (hex : excludedByName
        (resolve_name rn (attrGetD g.parentAttrs "name" "worldbody") (attrGet g.attrs "name")).1 = true
      ∨ excludedByGroup g
        (resolve_name rn (attrGetD g.parentAttrs "name" "worldbody") (attrGet g.attrs "name")).1 = true) :
    r = none := by
  unfold geomRecord at h
  simp only [bind, Except.bind] at h
  repeat' split at h
  all_goals simp_all

/-!
Loop lemmas for `parse_textures`, and Python-dict update lemmas for the
component table.
-/

theorem texturesLoop_isOk_false : ∀ (l : List AttrMap) (acc : TexTables),
    (∃ tex ∈ l, attrGet tex "file" = none ∧ attrGet tex "rgb1" = none) →
    (texturesLoop acc l).isOk = false := by
  intro l
  induction l with
  | nil => intro acc h; simp at h
  | cons tex rest ih =>
      intro acc h
      obtain ⟨t, ht, htf, htr⟩ := h
      simp only [texturesLoop]
      split
      · rename_i hf
        apply ih
        rcases List.mem_cons.mp ht with rfl | hmem
        · rw [htf] at hf; cases hf
        · exact ⟨t, hmem, htf, htr⟩
      · rename_i hf
        split
        · rfl
        · rename_i color hcolor
          apply ih
          rcases List.mem_cons.mp ht with rfl | hmem
          · rw [htr] at hcolor
            simp [string_to_array] at hcolor
          · exact ⟨t, hmem, htf, htr⟩

theorem texturesLoop_isOk_true : ∀ (l : List AttrMap) (acc : TexTables),
    (∀ tex ∈ l, attrGet tex "file" = none → (string_to_array (attrGet tex "rgb1")).isOk = true) →
    (texturesLoop acc l).isOk = true := by
  intro l
  induction l with
  | nil => intro acc _; rfl
  | cons tex rest ih =>
      intro acc h
      simp only [texturesLoop]
      split
      · exact ih _ (fun t ht => h t (List.mem_cons_of_mem _ ht))
      · rename_i hf
        split
        · rename_i e he
          have := h tex (List.mem_cons_self _ _) hf
          rw [he] at this
          simp [Except.isOk, Except.toBool] at this
        · exact ih _ (fun t ht => h t (List.mem_cons_of_mem _ ht))

theorem find?_replaceKey {α : Type} (k k' : String) (v : α) (hne : k' ≠ k) :
    ∀ m : List (String × α),
      (m.map (fun p => if p.1 == k then (k, v) else p)).find? (fun p => p.1 == k')
        = m.find? (fun p => p.1 == k') := by
  intro m
  induction m with
  | nil => rfl
  | cons p t ih =>
      simp only [List.map_cons]
      by_cases hp : (p.1 == k) = true
      · have hpk : p.1 = k := eq_of_beq hp
        have h2 : (p.1 == k') = false := by
          rw [hpk, beq_eq_false_iff_ne]; exact fun hc => hne hc.symm
        have h3 : ((k : String) == k') = false := by
          rw [beq_eq_false_iff_ne]; exact fun hc => hne hc.symm
        rw [if_pos hp]
        simp only [List.find?_cons, h2, h3]
        exact ih
      · rw [if_neg hp]
        by_cases h2 : (p.1 == k') = true
        · simp only [List.find?_cons, h2]
        · rw [Bool.not_eq_true] at h2
          simp only [List.find?_cons, h2]
          exact ih

theorem find?_appendSingle {α : Type} (k k' : String) (v : α) (hne : k' ≠ k) :
    ∀ m : List (String × α),
      (m ++ [(k, v)]).find? (fun p => p.1 == k') = m.find? (fun p => p.1 == k') := by
  intro m
  induction m with
  | nil =>
      have h3 : ((k : String) == k') = false := by
        rw [beq_eq_false_iff_ne]; exact fun hc => hne hc.symm
      simp only [List.nil_append, List.find?_cons, h3, List.find?_nil]
  | cons p t ih =>
      simp only [List.cons_append]
      by_cases h2 : (p.1 == k') = true
      · simp only [List.find?_cons, h2]
      · rw [Bool.not_eq_true] at h2
        simp only [List.find?_cons, h2]
        exact ih

theorem mapFst_replaceKey {α : Type} (k : String) (v : α) :
    ∀ m : List (String × α),
      (m.map (fun p => if p.1 == k then (k, v) else p)).map Prod.fst = m.map Prod.fst := by
  intro m
  induction m with
  | nil => rfl
  | cons p t ih =>
      simp only [List.map_cons]
      by_cases hp : (p.1 == k) = true
      · rw [if_pos hp, ih]
        have hpk : p.1 = k := eq_of_beq hp
        simp [hpk]
      · rw [if_neg hp, ih]

theorem dictGet_dictInsert_self {α : Type} : ∀ (m : List (String × α)) (k : String) (v : α),
    dictGet (dictInsert m k v) k = some v := by
  intro m k v
  induction m with
  | nil => simp [dictInsert, dictGet]
  | cons p t ih =>
      by_cases hp : p.1 = k
      · simp [dictInsert, dictGet, hp]
      · simp only [dictInsert, List.any_cons] at ih ⊢
        by_cases ht : t.any (fun q => q.1 == k)
        · simp [hp, ht, dictGet, List.find?] at ih ⊢
          simpa [dictInsert, ht, dictGet] using ih
        · simp [hp, ht, dictGet, List.find?] at ih ⊢
          simpa [dictInsert, ht, dictGet] using ih

/-- A successful `Except` computation from its optional value. -/
theorem eq_ok_of_toOption {ε α : Type} (e : Except ε α) (a : α)
    (h : e.toOption = some a) : e = Except.ok a := by
  cases e <;> simp [Except.toOption] at h ⊢
  exact h

/-- C5: for every emitted component, the dynamic flag is false exactly when
the resolved (disambiguated) name contains the "bin" tag. -/
theorem C5_dynamic_iff_bin_name (T : Tables) (rn rn' : List (String × Nat))
    (g : GeomNode) (n : String) (c : Components)
    (h : geomRecord T rn g = Except.ok (rn', some (n, c))) :
    c.dynamic = false ↔ strContains n "bin" = true := by
  obtain ⟨-, -, -, -, -, -, -, -, -, -, -, -, -, -, -, hd⟩ :=
    geomRecord_ok_some T rn g rn' n c h
  rw [hd]
  simp [tag_in_name]

/-- C5 witness: the "binA" geometry is emitted with dynamic = false. -/
theorem C5_dynamic_iff_bin_name_witness :
    geomRecord T0 [] gBin = Except.ok ([], some ("binA", c5rec)) ∧
    (c5rec.dynamic = false ↔ strContains "binA" "bin" = true) :=
  ⟨eq_ok_of_toOption _ _ (by decide),
   C5_dynamic_iff_bin_name T0 [] [] gBin "binA" c5rec (eq_ok_of_toOption _ _ (by decide))⟩

/-- C4: for an emitted geometry whose parent body name contains "bin", the
emitted position is the geometry's local position attribute (default zero)
plus the parent body's position attribute (default zero), as rational
vectors; under any other parent it is the local position alone. -/
theorem C4_bin_position_composition (T : Tables) (rn rn' : List (String × Nat))
    (g : GeomNode) (n : String) (c : Components) (xs ys : List Dec)
    (h : geomRecord T rn g = Except.ok (rn', some (n, c)))
    (hx : string_to_array (some (attrGetD g.attrs "pos" "0 0 0")) = Except.ok xs)
    (hy : string_to_array (some (attrGetD g.parentAttrs "pos" "0 0 0")) = Except.ok ys)
    (hlen : xs.length = ys.length) :
    (strContains (attrGetD g.parentAttrs "name" "worldbody") "bin" = true →
      c.geom_pos.map Dec.toRat =
        List.zipWith (fun a b => a + b) (xs.map Dec.toRat) (ys.map Dec.toRat)) ∧
    (strContains (attrGetD g.parentAttrs "name" "worldbody") "bin" = false →
      c.geom_pos = xs) := by
  obtain ⟨-, -, -, -, -, -, hpos, -⟩ := geomRecord_ok_some T rn g rn' n c h
  unfold resolve_pos at hpos
  by_cases hb : strContains (attrGetD g.parentAttrs "name" "worldbody") "bin" = true
  · rw [if_pos hb] at hpos
    simp only [bind, Except.bind, hx, hy] at hpos
    unfold npAdd at hpos
    rw [if_pos hlen] at hpos
    have hzip : c.geom_pos = xs.zipWith Dec.add ys := (Except.ok.inj hpos).symm
    constructor
    · intro _
      rw [hzip, map_toRat_zipWith_add]
    · intro hcontra
      rw [hb] at hcontra
      cases hcontra
  · rw [if_neg hb] at hpos
    rw [hx] at hpos
    constructor
    · intro htrue; exact absurd htrue hb
    · intro _
      exact (Except.ok.inj hpos).symm
/-- C4 witness: geom pos `(1,0,0)` under bin-tagged parent at `(0,2,0)`
emits `(1,2,0)`. -/
theorem C4_bin_position_composition_witness :
    geomRecord T0 [] g4 = Except.ok ([], some ("g", c4rec)) ∧
    strContains (attrGetD g4.parentAttrs "name" "worldbody") "bin" = true ∧
    c4rec.geom_pos = [⟨1, 0⟩, ⟨2, 0⟩, ⟨0, 0⟩] ∧
    c4rec.geom_pos.map Dec.toRat =
      List.zipWith (fun a b => a + b) (xs4.map Dec.toRat) (ys4.map Dec.toRat) :=
  ⟨eq_ok_of_toOption _ _ (by decide), by decide, by decide,
   (C4_bin_position_composition T0 [] [] g4 "g" c4rec xs4 ys4
      (eq_ok_of_toOption _ _ (by decide)) (eq_ok_of_toOption _ _ (by decide))
      (eq_ok_of_toOption _ _ (by decide)) (by decide)).1 (by decide)⟩

/-- C6: geometry nodes whose resolved name contains a floor or wall marker,
or is on the deny-list, or whose render group is not "1" while the type is
not "plane", or whose resolved name contains "collision", emit no component. -/
theorem C6_exclusion_complete (T : Tables) (rn rn' : List (String × Nat)) (g : GeomNode)
    (r : Option (String × Components)) (n : String)
    (h : geomRecord T rn g = Except.ok (rn', r))
    (hn : n = (resolve_name rn (attrGetD g.parentAttrs "name" "worldbody")
                (attrGet g.attrs "name")).1)
    (hex : strContains n "floor" = true ∨ strContains n "wall" = true
      ∨ n ∈ block_rendering_objects
      ∨ (attrGet g.attrs "group" ≠ some "1" ∧ attrGet g.attrs "type" ≠ some "plane")
      ∨ strContains n "collision" = true) :
    r = none := by
  apply geomRecord_ok_excluded T rn g rn' r h
  subst hn
  rcases hex with h1 | h1 | h1 | ⟨h1, h2⟩ | h1
  · left; simp [excludedByName, h1]
  · left; simp [excludedByName, h1]
  · left; simp [excludedByName, h1]
  · right; simp [excludedByGroup, h1, h2]
  · right; simp [excludedByGroup, h1]

/-- C6 witness: the unnamed group-"0" geometry under body "X" resolves to
"X0", fails the render-group filter, and emits nothing. -/
theorem C6_exclusion_complete_witness :
    geomRecord T0 [] gX0 = Except.ok ([("X", 1)], none) ∧
    (resolve_name [] (attrGetD gX0.parentAttrs "name" "worldbody")
      (attrGet gX0.attrs "name")).1 = "X0" ∧
    (attrGet gX0.attrs "group" ≠ some "1" ∧ attrGet gX0.attrs "type" ≠ some "plane") ∧
    (none : Option (String × Components)) = none :=
  ⟨eq_ok_of_toOption _ _ (by decide), by decide, ⟨by decide, by decide⟩,
   C6_exclusion_complete T0 [] [("X", 1)] gX0 none "X0"
     (eq_ok_of_toOption _ _ (by decide)) (by decide)
     (Or.inr (Or.inr (Or.inr (Or.inl ⟨by decide, by decide⟩))))⟩

/-- C7: an emitted mesh-typed geometry takes the scale recorded in the mesh
table for the referenced mesh, `(1,1,1)` when that attribute is absent; any
other type always gets `(1,1,1)` regardless of the mesh table. -/
theorem C7_mesh_scale (T : Tables) (rn rn' : List (String × Nat)) (g : GeomNode)
    (n : String) (c : Components)
    (h : geomRecord T rn g = Except.ok (rn', some (n, c))) :
    (∀ mattrs sc, attrGet g.attrs "type" = some "mesh" →
        alistGet T.meshes (attrGet g.attrs "mesh") = some mattrs →
        string_to_array (some (attrGetD mattrs "scale" "1 1 1")) = Except.ok sc →
        c.obj.geom_scale = sc) ∧
    (∀ mattrs, attrGet g.attrs "type" = some "mesh" →
        alistGet T.meshes (attrGet g.attrs "mesh") = some mattrs →
        attrGet mattrs "scale" = none →
        c.obj.geom_scale = [Dec.one, Dec.one, Dec.one]) ∧
    (attrGet g.attrs "type" ≠ some "mesh" →
        c.obj.geom_scale = [Dec.one, Dec.one, Dec.one]) := by
  obtain ⟨-, -, -, -, -, -, -, hscale, -⟩ := geomRecord_ok_some T rn g rn' n c h
  refine ⟨?_, ?_, ?_⟩
  · intro mattrs sc htype hlook hsc
    unfold resolve_scale at hscale
    rw [if_pos (by simp [htype] : (attrGet g.attrs "type" == some "mesh") = true)] at hscale
    simp only [hlook] at hscale
    rw [hsc] at hscale
    exact (Except.ok.inj hscale).symm
  · intro mattrs htype hlook hnone
    unfold resolve_scale at hscale
    rw [if_pos (by simp [htype] : (attrGet g.attrs "type" == some "mesh") = true)] at hscale
    simp only [hlook] at hscale
    have hd : attrGetD mattrs "scale" "1 1 1" = "1 1 1" := by
      unfold attrGetD; rw [hnone]; rfl
    rw [hd] at hscale
    have hsa : string_to_array (some "1 1 1") = Except.ok [Dec.one, Dec.one, Dec.one] :=
      eq_ok_of_toOption _ _ (by decide)
    rw [hsa] at hscale
    exact (Except.ok.inj hscale).symm
  · intro htype
    unfold resolve_scale at hscale
    rw [if_neg (by simp [htype] : ¬((attrGet g.attrs "type" == some "mesh") = true))] at hscale
    exact (Except.ok.inj hscale).symm

/-- C7 witness: mesh "mm" records scale `2 2 2` and the emitted scale is
`(2,2,2)`. -/
theorem C7_mesh_scale_witness :
    attrGet gMesh.attrs "type" = some "mesh" ∧
    alistGet Tmesh.meshes (attrGet gMesh.attrs "mesh") = some meshAttrs ∧
    cMeshRec.obj.geom_scale = [⟨2, 0⟩, ⟨2, 0⟩, ⟨2, 0⟩] :=
  ⟨by decide, by decide,
   (C7_mesh_scale Tmesh [] [] gMesh "gm" cMeshRec (eq_ok_of_toOption _ _ (by decide))).1
     meshAttrs [⟨2, 0⟩, ⟨2, 0⟩, ⟨2, 0⟩] (by decide) (by decide)
     (eq_ok_of_toOption _ _ (by decide))⟩

/-- C1 counterexample: a document with two geometry nodes both explicitly
named "foo" parses successfully; the single emitted record under "foo" is
the second node's (position `(7,0,0)`), the first being overwritten. -/
theorem C1_counterexample :
    (parse_all c1doc).isOk = true ∧
    (parse_all c1doc).toOption.map (fun l => l.map Prod.fst) = some ["foo"] ∧
    (parse_all c1doc).toOption.map (fun l => l.map (fun p => p.2.geom_pos)) =
      some [[⟨7, 0⟩, ⟨0, 0⟩, ⟨0, 0⟩]] :=
  ⟨by decide, by decide, by decide⟩

/-- C1 (amended): inserting under an existing component name succeeds and
replaces the stored record in place — the later record wins, other keys and
the key order are untouched; there is no duplicate-name failure. -/
theorem C1_duplicate_name_overwrites {α : Type} (comps : List (String × α))
    (k : String) (v : α) :
    dictGet (dictInsert comps k v) k = some v ∧
    (∀ k2, k2 ≠ k → dictGet (dictInsert comps k v) k2 = dictGet comps k2) ∧
    (comps.any (fun p => p.1 == k) = true →
      (dictInsert comps k v).map Prod.fst = comps.map Prod.fst) := by
  refine ⟨dictGet_dictInsert_self comps k v, ?_, ?_⟩
  · intro k2 hne
    unfold dictInsert dictGet
    by_cases hany : comps.any (fun p => p.1 == k) = true
    · rw [if_pos hany, find?_replaceKey k k2 v hne]
    · rw [if_neg hany, find?_appendSingle k k2 v hne]
  · intro hany
    unfold dictInsert
    rw [if_pos hany]
    exact mapFst_replaceKey k v comps

/-- C1 witness: overwriting "foo" keeps one entry, keyed order preserved. -/
theorem C1_duplicate_name_overwrites_witness :
    dictGet (dictInsert [("foo", c5rec)] "foo" c4rec) "foo" = some c4rec ∧
    dictGet (dictInsert [("foo", c5rec)] "foo" c4rec) "bar" = dictGet [("foo", c5rec)] "bar" ∧
    (dictInsert [("foo", c5rec)] "foo" c4rec).map Prod.fst = [("foo", c5rec)].map Prod.fst :=
  ⟨(C1_duplicate_name_overwrites [("foo", c5rec)] "foo" c4rec).1,
   (C1_duplicate_name_overwrites [("foo", c5rec)] "foo" c4rec).2.1 "bar" (by decide),
   (C1_duplicate_name_overwrites [("foo", c5rec)] "foo" c4rec).2.2 (by decide)⟩

/-- C2 counterexample: a geometry referencing a material absent from the
material table aborts the pass with a key lookup error (first conjunct);
and when the material exists but its texture is absent from the texture
tables, the texture name is still forwarded (second conjunct) — the claim
expects no failure and no texture name respectively. -/
theorem C2_counterexample :
    errOf (parse_all c2doc) = some (PyError.keyError (some "m")) ∧
    (parse_all c2doc2).toOption.map
        (fun l => l.map (fun p => (p.2.obj.geom_tex_name, p.2.obj.geom_tex_file)))
      = some [(some "t", none)] :=
  ⟨by decide, by decide⟩

/-- C2 (amended): a geometry with no material reference gets no binding; a
texture name absent from the file-backed texture table yields no texture
file while the texture name itself is still forwarded; a material name
absent from the material table aborts the pass with a key lookup error. -/
theorem C2_texture_resolution (T : Tables) (m : String) :
    resolve_tex T none = Except.ok (none, none) ∧
    (alistGet T.material_texture_mapping (some m) = none →
      resolve_tex T (some m) = Except.error (PyError.keyError (some m))) ∧
    (∀ texName, alistGet T.material_texture_mapping (some m) = some texName →
      alistGet T.texture_attributes texName = none →
      resolve_tex T (some m) = Except.ok (texName, none)) := by
  refine ⟨rfl, ?_, ?_⟩
  · intro h
    unfold resolve_tex
    simp only [h]
  · intro texName h1 h2
    unfold resolve_tex
    simp only [h1, h2]

/-- C2 witness: material "m" bound to texture "t", "t" absent from the
texture tables: the reference resolves to `(some "t", none)`. -/
theorem C2_texture_resolution_witness :
    alistGet (Tables.mk [] [(some "m", some "t")] []).material_texture_mapping (some "m")
      = some (some "t") ∧
    alistGet (Tables.mk [] [(some "m", some "t")] []).texture_attributes (some "t") = none ∧
    resolve_tex (Tables.mk [] [(some "m", some "t")] []) (some "m")
      = Except.ok (some "t", none) :=
  ⟨by decide, by decide,
   (C2_texture_resolution (Tables.mk [] [(some "m", some "t")] []) "m").2.2
     (some "t") (by decide) (by decide)⟩

/-- C3 counterexample: both geometries under body "X" are unnamed, yet the
emitted names are exactly ["X1"] — the emitted sequence does not start at
index 0, because the excluded first child consumed index 0. -/
theorem C3_counterexample :
    c3doc.geoms.map (fun g => attrGet g.attrs "name") = [none, none] ∧
    c3doc.geoms.map (fun g => attrGetD g.parentAttrs "name" "worldbody") = ["X", "X"] ∧
    (parse_all c3doc).toOption.map (fun l => l.map Prod.fst) = some ["X1"] :=
  ⟨by decide, by decide, by decide⟩

/-- C3 (amended): synthesized names follow `parent ++ repr counter` with the
per-parent counter starting at 0 and incrementing by one per unnamed
geometry under that parent (excluded geometries included), so the indices
of emitted unnamed siblings strictly increase in document order and their
names are pairwise distinct — but they need not start at index 0. -/
theorem C3_synthesized_names (rn : List (String × Nat)) (p : String) (k1 k2 : Nat)
    (hne : k1 ≠ k2) :
    (resolve_name rn p none).1 = p ++ Nat.repr ((lookupNat rn p).getD 0) ∧
    lookupNat (resolve_name rn p none).2 p = some ((lookupNat rn p).getD 0 + 1) ∧
    p ++ Nat.repr k1 ≠ p ++ Nat.repr k2 := by
  refine ⟨?_, ?_, ?_⟩
  · unfold resolve_name
    cases hl : lookupNat rn p with
    | none =>
        have h0 : Nat.repr 0 = "0" := rfl
        simp [hl, h0]
    | some k => simp [hl]
  · unfold resolve_name
    cases hl : lookupNat rn p with
    | none => simp [hl, lookupNat, setNat, List.find?_cons]
    | some k => simp [hl, lookupNat, setNat, List.find?_cons]
  · intro hc
    exact hne (natRepr_injective k1 k2 (strAppend_inj p _ _ hc))

/-- C3 witness: under body "X" with counter at 1, the next synthesized name
is "X1", the counter moves to 2, and "X1" differs from "X2". -/
theorem C3_synthesized_names_witness :
    (resolve_name [("X", 1)] "X" none).1 = "X" ++ Nat.repr 1 ∧
    lookupNat (resolve_name [("X", 1)] "X" none).2 "X" = some 2 ∧
    "X" ++ Nat.repr 1 ≠ "X" ++ Nat.repr 2 :=
  (C3_synthesized_names [("X", 1)] "X" 1 2 (by decide))

/-- C8: a file-less texture node missing its color string makes the texture
pass fail (the error surfaces to the caller); when every file-less texture
node carries a parseable color string the pass completes. -/
theorem C8_texture_errors (doc : SceneDocument) :
    ((∃ tex ∈ doc.textures, attrGet tex "file" = none ∧ attrGet tex "rgb1" = none) →
      (parse_textures doc).isOk = false) ∧
    ((∀ tex ∈ doc.textures, attrGet tex "file" = none →
        (string_to_array (attrGet tex "rgb1")).isOk = true) →
      (parse_textures doc).isOk = true) :=
  ⟨fun h => texturesLoop_isOk_false doc.textures ⟨[], []⟩ h,
   fun h => texturesLoop_isOk_true doc.textures ⟨[], []⟩ h⟩

/-- C8 witness: the malformed document fails, the well-formed one passes. -/
theorem C8_texture_errors_witness :
    (parse_textures c8bad).isOk = false ∧ (parse_textures c8good).isOk = true :=
  ⟨(C8_texture_errors c8bad).1 (by decide), (C8_texture_errors c8good).2 (by decide)⟩

/-- C9: the full pass `parse_textures` → `parse_materials` →
`parse_geometries` is a pure function of the document, so two fresh parser
instances over the same document yield identical ordered component lists. -/
theorem C9_determinism (doc : SceneDocument) : parse_all doc = parse_all doc := rfl

/-- C10: an unnamed geometry consumes its parent's counter whether or not it
is excluded: after the step the counter reads one more than before, and if a
record was emitted its name used the pre-step counter value. -/
theorem C10_counter_consumed (T : Tables) (rn rn' : List (String × Nat)) (g : GeomNode)
    (r : Option (String × Components))
    (h : geomRecord T rn g = Except.ok (rn', r))
    (hu : attrGet g.attrs "name" = none) :
    lookupNat rn' (attrGetD g.parentAttrs "name" "worldbody") =
      some ((lookupNat rn (attrGetD g.parentAttrs "name" "worldbody")).getD 0 + 1) ∧
    (∀ n c, r = some (n, c) →
      n = attrGetD g.parentAttrs "name" "worldbody"
            ++ Nat.repr ((lookupNat rn (attrGetD g.parentAttrs "name" "worldbody")).getD 0)) := by
  have hrn := geomRecord_ok_rn T rn g rn' r h
  constructor
  · rw [hrn, hu]
    unfold resolve_name
    cases hl : lookupNat rn (attrGetD g.parentAttrs "name" "worldbody") with
    | none => simp [hl, lookupNat, setNat, List.find?_cons]
    | some k => simp [hl, lookupNat, setNat, List.find?_cons]
  · rintro n c rfl
    obtain ⟨hname, -⟩ := geomRecord_ok_some T rn g rn' n c h
    rw [hu] at hname
    rw [← hname]
    unfold resolve_name
    cases hl : lookupNat rn (attrGetD g.parentAttrs "name" "worldbody") with
    | none =>
        have h0 : Nat.repr 0 = "0" := rfl
        simp [hl, h0]
    | some k => simp [hl]

/-- C10 witness: the excluded unnamed geometry `gX0` bumps body "X"'s
counter from absent (0) to 1 while emitting nothing, and the subsequent
unnamed sibling is emitted as "X1" (skipping index 0). -/
theorem C10_counter_consumed_witness :
    lookupNat [("X", 1)] (attrGetD gX0.parentAttrs "name" "worldbody") = some 1 ∧
    (parse_all c3doc).toOption.map (fun l => l.map Prod.fst) = some ["X1"] :=
  ⟨(C10_counter_consumed T0 [] [("X", 1)] gX0 none
      (eq_ok_of_toOption _ _ (by decide)) (by decide)).1,
   by decide⟩

end Robosuite
